import Mathlib

/-!
Verification of the Browser Threat Simulator's Simulation & Risk-Detection
Engine against its natural-language specification.

The definitions below are shallow embeddings of the TypeScript sources:

* `src/background/service-worker.ts` — progression tracker
  (`BackgroundService.handleSimulationEvent`, `updateAverageDetectionTime`,
  `createDefaultStats`);
* `src/background/simulation-engine.ts` — simulation cadence
  (`SimulationEngine.shouldTriggerSimulation`, the state update performed by
  `generateSimulation`);
* the credential detector (`CredentialDetector.analyze` and its helpers);
* the context analyzer (`ContextAnalyzer.analyze` and its helpers);
* `src/ai/phishing-generator.ts` — red-team path
  (`PhishingGenerator.generateRedTeamScenario`).

JavaScript numbers are modelled as `Int` (timestamps, counters, risk score)
and `ℚ` (the fractional detection scores and running averages; every literal
in the sources is an exact decimal, so rational arithmetic coincides with the
source semantics on all values reachable here).  Impure inputs (`Date.now()`,
`Math.random()`, generated ids) are passed as explicit parameters.
-/

namespace BTS

/-- Event kinds delivered to the tracker (`EventType` in `src/shared/types.ts`). -/
inductive EventType where
  | simulationShown
  | linkClicked
  | formFocused
  | credentialEntered
  | simulationDetected
  | simulationIgnored
  | reportedPhishing
  deriving DecidableEq, Repr

/-- Difficulty scale (`'easy' | 'medium' | 'hard' | 'expert'`). -/
inductive Difficulty where
  | easy
  | medium
  | hard
  | expert
  deriving DecidableEq, Repr

/-- Embedding of `DifficultyProgression` from `src/shared/types.ts`. -/
structure DifficultyProgression where
  currentLevel : Difficulty
  successRate : ℚ
  consecutiveSuccesses : Nat
  consecutiveFailures : Nat
  deriving DecidableEq, Repr

/-- Embedding of `UserStats` from `src/shared/types.ts`. -/
structure UserStats where
  userId : String
  simulationsSeen : Nat
  simulationsClicked : Nat
  credentialsEntered : Nat
  simulationsDetected : Nat
  averageDetectionTime : ℚ
  difficultyProgression : DifficultyProgression
  riskScore : Int
  lastUpdated : Int
  deriving DecidableEq, Repr

/-- A simulation event as read by the tracker.  Of the open-ended
`metadata` record the tracker only ever reads `metadata?.shownAt`, embedded
here as `shownAt : Option Int` (`none` = metadata absent or field absent). -/
structure SimulationEvent where
  id : String
  simulationId : String
  type : EventType
  timestamp : Int
  url : String
  shownAt : Option Int
  deriving DecidableEq, Repr

/-- JavaScript truthiness of an optional number: `undefined` and `0` are
falsy (`event.metadata?.shownAt` guards the detection-time update). -/
def jsTruthyNum : Option Int → Bool
  | none => false
  | some v => v ≠ 0

/-- Embedding of `BackgroundService.createDefaultStats` (service-worker.ts:460-477); the
generated id and `Date.now()` are explicit parameters. -/
def createDefaultStats (userId : String) (now : Int := 0) : UserStats :=
  { userId := userId
    simulationsSeen := 0
    simulationsClicked := 0
    credentialsEntered := 0
    simulationsDetected := 0
    averageDetectionTime := 0
    difficultyProgression :=
      { currentLevel := .easy
        successRate := 0
        consecutiveSuccesses := 0
        consecutiveFailures := 0 }
    riskScore := 50
    lastUpdated := now }

/-- Embedding of `BackgroundService.updateAverageDetectionTime` (service-worker.ts:449-455).
Reads the already-incremented `simulationsDetected` as the divisor. -/
def updateAverageDetectionTime (stats : UserStats) (newTime : ℚ) : UserStats :=
  let current := stats.averageDetectionTime
  let count : ℚ := stats.simulationsDetected
  { stats with averageDetectionTime := (current * (count - 1) + newTime) / count }

/-- Embedding of `BackgroundService.handleSimulationEvent` (service-worker.ts:203-246):
`simulationsSeen++` happens unconditionally, then the per-kind counter and
risk-score delta, then the detection-time update when the event is a
detection carrying a truthy `shownAt`, then `lastUpdated = Date.now()`. -/
def handleSimulationEvent (stats0 : UserStats) (event : SimulationEvent)
    (now : Int) : UserStats :=
  let stats1 := { stats0 with simulationsSeen := stats0.simulationsSeen + 1 }
  let stats2 :=
    match event.type with
    | .linkClicked =>
        { stats1 with
            simulationsClicked := stats1.simulationsClicked + 1
            riskScore := stats1.riskScore + 25 }
    | .credentialEntered =>
        { stats1 with
            credentialsEntered := stats1.credentialsEntered + 1
            riskScore := stats1.riskScore + 50 }
    | .simulationDetected =>
        { stats1 with
            simulationsDetected := stats1.simulationsDetected + 1
            riskScore := max 0 (stats1.riskScore - 20) }
    | .reportedPhishing =>
        { stats1 with
            simulationsDetected := stats1.simulationsDetected + 1
            riskScore := max 0 (stats1.riskScore - 30) }
    | _ => stats1
  let stats3 :=
    if event.type = EventType.simulationDetected ∧ jsTruthyNum event.shownAt then
      updateAverageDetectionTime stats2
        ((event.timestamp : ℚ) - ((event.shownAt.getD 0 : Int) : ℚ))
    else stats2
  { stats3 with lastUpdated := now }

/-- Sequential delivery of a list of events to the tracker. -/
def runEvents (stats : UserStats) (events : List SimulationEvent) : UserStats :=
  events.foldl (fun s e => handleSimulationEvent s e 0) stats

/-- A credential-entered event with no metadata. -/
def credEvent : SimulationEvent :=
  { id := "e1", simulationId := "s1", type := .credentialEntered,
    timestamp := 0, url := "", shownAt := none }

/-- A link-clicked event with no metadata. -/
def clickEvent : SimulationEvent :=
  { id := "e2", simulationId := "s1", type := .linkClicked,
    timestamp := 0, url := "", shownAt := none }

/-- A simulation-detected event whose metadata carries `shownAt`. -/
def detEvent (ts shown : Int) : SimulationEvent :=
  { id := "e3", simulationId := "s1", type := .simulationDetected,
    timestamp := ts, url := "", shownAt := some shown }

/-- C1 (code bug evidence): from the default stats (risk score 50), two
credential-entered events drive the risk score to 150 — the `+50` and `+25`
branches of `handleSimulationEvent` never clamp above at 100 (only the
decrements clamp below at 0), contradicting the documented 0-100 range. -/
theorem riskScore_not_clamped_above :
    (runEvents (createDefaultStats "u") [credEvent, credEvent]).riskScore = 150 := by
  rfl

/-- C5: on a simulation-detected event carrying a (truthy) `shownAt`, the
detected-count increments and the running average is updated by
`avg = (avg*(n-1) + newSample)/n` with `n` the post-increment count and
`newSample = timestamp - shownAt`; concretely, two detections with elapsed
times 10000 ms and 20000 ms from the initial state yield average 15000 ms. -/
theorem averageDetectionTime_incremental_mean
    (stats : UserStats) (event : SimulationEvent) (now s : Int)
    (htype : event.type = .simulationDetected)
    (hshown : event.shownAt = some s) (hs : s ≠ 0) :
    (handleSimulationEvent stats event now).simulationsDetected
        = stats.simulationsDetected + 1 ∧
    (handleSimulationEvent stats event now).averageDetectionTime
        = (stats.averageDetectionTime
            * (((stats.simulationsDetected : ℚ) + 1) - 1)
           + ((event.timestamp : ℚ) - (s : ℚ)))
          / ((stats.simulationsDetected : ℚ) + 1) ∧
    (runEvents (createDefaultStats "u")
        [detEvent 15000 5000, detEvent 25000 5000]).averageDetectionTime
      = 15000 := by
  refine ⟨?_, ?_, ?_⟩
  · simp [handleSimulationEvent, updateAverageDetectionTime, htype, hshown,
      jsTruthyNum, hs]
  · simp [handleSimulationEvent, updateAverageDetectionTime, htype, hshown,
      jsTruthyNum, hs]
  · norm_num [runEvents, handleSimulationEvent, updateAverageDetectionTime,
      createDefaultStats, detEvent, jsTruthyNum]

/-- Witness for C5 at a concrete detection event. -/
theorem averageDetectionTime_incremental_mean_witness :
    (handleSimulationEvent (createDefaultStats "u") (detEvent 15000 5000)
        0).simulationsDetected
      = (createDefaultStats "u").simulationsDetected + 1 :=
  (averageDetectionTime_incremental_mean (createDefaultStats "u")
    (detEvent 15000 5000) 0 5000 rfl rfl (by decide)).1

/-- C9 (amended): every event unconditionally increments `simulationsSeen`;
in addition the kind-relevant counter increments and the fixed delta applies
(+25 clicked, +50 entered, −20 detected, −30 reported, the two decrements
clamped below at 0, the two increments not clamped above), with the
counters of the other kinds and (except for detections) the running average
left unchanged. -/
theorem handleSimulationEvent_frame
    (stats : UserStats) (event : SimulationEvent) (now : Int) :
    (handleSimulationEvent stats event now).simulationsSeen
        = stats.simulationsSeen + 1 ∧
    (event.type = .linkClicked →
      (handleSimulationEvent stats event now).simulationsClicked
          = stats.simulationsClicked + 1 ∧
      (handleSimulationEvent stats event now).riskScore = stats.riskScore + 25 ∧
      (handleSimulationEvent stats event now).credentialsEntered
          = stats.credentialsEntered ∧
      (handleSimulationEvent stats event now).simulationsDetected
          = stats.simulationsDetected ∧
      (handleSimulationEvent stats event now).averageDetectionTime
          = stats.averageDetectionTime) ∧
    (event.type = .credentialEntered →
      (handleSimulationEvent stats event now).credentialsEntered
          = stats.credentialsEntered + 1 ∧
      (handleSimulationEvent stats event now).riskScore = stats.riskScore + 50 ∧
      (handleSimulationEvent stats event now).simulationsClicked
          = stats.simulationsClicked ∧
      (handleSimulationEvent stats event now).simulationsDetected
          = stats.simulationsDetected ∧
      (handleSimulationEvent stats event now).averageDetectionTime
          = stats.averageDetectionTime) ∧
    (event.type = .simulationDetected →
      (handleSimulationEvent stats event now).simulationsDetected
          = stats.simulationsDetected + 1 ∧
      (handleSimulationEvent stats event now).riskScore
          = max 0 (stats.riskScore - 20) ∧
      (handleSimulationEvent stats event now).simulationsClicked
          = stats.simulationsClicked ∧
      (handleSimulationEvent stats event now).credentialsEntered
          = stats.credentialsEntered) ∧
    (event.type = .reportedPhishing →
      (handleSimulationEvent stats event now).simulationsDetected
          = stats.simulationsDetected + 1 ∧
      (handleSimulationEvent stats event now).riskScore
          = max 0 (stats.riskScore - 30) ∧
      (handleSimulationEvent stats event now).simulationsClicked
          = stats.simulationsClicked ∧
      (handleSimulationEvent stats event now).credentialsEntered
          = stats.credentialsEntered ∧
      (handleSimulationEvent stats event now).averageDetectionTime
          = stats.averageDetectionTime) := by
  by_cases hb : jsTruthyNum event.shownAt = true <;>
    cases h : event.type <;>
      simp_all [handleSimulationEvent, updateAverageDetectionTime]

/-- Witness for C9 (amended) at a concrete credential-entered event. -/
theorem handleSimulationEvent_frame_witness :
    (handleSimulationEvent (createDefaultStats "u") credEvent 0).simulationsSeen
        = (createDefaultStats "u").simulationsSeen + 1 ∧
    (handleSimulationEvent (createDefaultStats "u") credEvent 0).credentialsEntered
        = (createDefaultStats "u").credentialsEntered + 1 :=
  ⟨(handleSimulationEvent_frame (createDefaultStats "u") credEvent 0).1,
   ((handleSimulationEvent_frame (createDefaultStats "u") credEvent 0).2.2.1
      rfl).1⟩

/-- C9 (counterexample): a single link-clicked event also increments
`simulationsSeen` (so not only the kind-relevant counter changes), and from
risk score 80 it yields 105, so no re-clamping to [0,100] happens on the
positive deltas. -/
theorem handleSimulationEvent_not_only_relevant_counter :
    (handleSimulationEvent (createDefaultStats "u") clickEvent 0).simulationsSeen
        = 1 ∧
    (handleSimulationEvent
        { createDefaultStats "u" with riskScore := 80 } clickEvent 0).riskScore
        = 105 := by
  constructor <;> rfl

/-- Substring test on character lists: `occursWithin p s` is true iff `p` occurs
contiguously in `s` (the semantics of JavaScript `String.includes`). -/
def occursWithin (p : List Char) : List Char → Bool
  | [] => p.isEmpty
  | c :: rest => p.isPrefixOf (c :: rest) || occursWithin p rest

/-- JavaScript `s.includes(p)` on strings. -/
def strIncludes (s p : String) : Bool :=
  occursWithin p.toList s.toList

/-- JavaScript truthiness of an optional string: `undefined` and `''` are
falsy. -/
def jsTruthyStr : Option String → Bool
  | none => false
  | some s => !s.isEmpty

/-- JavaScript `toLowerCase` on the ASCII strings appearing here (per-char
lower-casing). -/
def lowerStr (s : String) : String :=
  String.mk (s.toList.map Char.toLower)

/-- Splits a character list on a separator character; mirrors
`String.prototype.split` with a single-character separator (an empty input
yields one empty group, adjacent separators yield empty groups). -/
def splitOnChar (sep : Char) : List Char → List (List Char)
  | [] => [[]]
  | c :: rest =>
      if c = sep then [] :: splitOnChar sep rest
      else
        match splitOnChar sep rest with
        | [] => [[c]]
        | g :: gs => (c :: g) :: gs

/-- JavaScript `Math.round` on the non-negative rationals used here
(round half up). -/
def jsRound (q : ℚ) : Int := ⌊q + 1 / 2⌋

/-- Platform enum (`Platform` in `src/shared/types.ts`). -/
inductive Platform where
  | github
  | linkedin
  | gmail
  | unknown
  deriving DecidableEq, Repr

/-- Embedding of `Activity` from `src/shared/types.ts`. -/
structure Activity where
  type : String
  content : String
  timestamp : Int
  deriving DecidableEq, Repr

/-- Embedding of `Connection` from `src/shared/types.ts`. -/
structure Connection where
  name : String
  platform : Platform
  relationship : String
  deriving DecidableEq, Repr

/-- Embedding of `UserContext` from `src/shared/types.ts`; optional fields
are `Option`s (`none` = absent). -/
structure UserContext where
  platform : Platform
  userId : Option String := none
  username : Option String := none
  email : Option String := none
  organization : Option String := none
  recentActivity : Option (List Activity) := none
  connections : Option (List Connection) := none
  timestamp : Int := 0
  deriving DecidableEq, Repr

/-- Risk profile values of `ContextAnalysis`. -/
inductive RiskProfile where
  | low
  | medium
  | high
  deriving DecidableEq, Repr

/-- Embedding of `ContextAnalysis` from the context analyzer source. -/
structure ContextAnalysis where
  riskProfile : RiskProfile
  primaryPlatform : Platform
  keyContacts : List String
  topics : List String
  organizations : List String
  suggestedAttackVectors : List String
  personalizationScore : Int
  deriving DecidableEq, Repr

namespace ContextAnalyzer

/-- Per-context additive increment of `ContextAnalyzer.calculateRiskProfile`:
+10 for more than 10 recent activities, +10 for more than 50 connections,
+5 for the LinkedIn platform. -/
def riskIncrement (context : UserContext) : Int :=
  (if (context.recentActivity.getD []).length > 10 then 10 else 0)
    + (if (context.connections.getD []).length > 50 then 10 else 0)
    + (if context.platform = Platform.linkedin then 5 else 0)

/-- Embedding of `ContextAnalyzer.calculateRiskProfile`: base score 50 plus
the per-context increments; thresholds ≥70 → high, ≥40 → medium, else low. -/
def calculateRiskProfile (contexts : List UserContext) : RiskProfile :=
  let riskScore := contexts.foldl (fun acc c => acc + riskIncrement c) 50
  if riskScore ≥ 70 then .high
  else if riskScore ≥ 40 then .medium
  else .low

/-- Total activity-item count attributed to a platform. -/
def activityCount (contexts : List UserContext) (p : Platform) : Nat :=
  (contexts.filter (fun c => c.platform = p)).foldl
    (fun acc c => acc + (c.recentActivity.getD []).length) 0

/-- Embedding of `ContextAnalyzer.determinePrimaryPlatform`: the counts
record is built with keys in declaration order github, linkedin, gmail,
unknown, then stably sorted descending — so the first platform attaining the
maximal count wins. -/
def determinePrimaryPlatform (contexts : List UserContext) : Platform :=
  [Platform.github, Platform.linkedin, Platform.gmail, Platform.unknown].foldl
    (fun best p =>
      if activityCount contexts p > activityCount contexts best then p else best)
    Platform.github

/-- Appends a value to an accumulator unless already present (JavaScript
`Set` insertion-order semantics). -/
def insertDistinct (acc : List String) (name : String) : List String :=
  if name ∈ acc then acc else acc ++ [name]

/-- Embedding of `ContextAnalyzer.extractKeyContacts`: first five connections
of each context, distinct names in insertion order. -/
def extractKeyContacts (contexts : List UserContext) : List String :=
  contexts.foldl
    (fun acc c =>
      ((c.connections.getD []).take 5).foldl
        (fun a conn => insertDistinct a conn.name) acc)
    []

/-- Topic keyword table of `ContextAnalyzer.extractTopics`, in declaration
order. -/
def topicKeywords : List (String × List String) :=
  [("security", ["security", "phishing", "password", "auth", "2fa", "mfa"]),
   ("development",
    ["code", "repo", "commit", "pull request", "merge", "bug", "feature"]),
   ("business",
    ["meeting", "project", "deadline", "client", "revenue", "sales"]),
   ("cloud", ["aws", "azure", "gcp", "cloud", "serverless", "deployment"]),
   ("data", ["database", "analytics", "metrics", "dashboard", "report"])]

/-- Increments a topic's score in an insertion-ordered association list
(JavaScript object-record semantics). -/
def bumpTopic (scores : List (String × Nat)) (topic : String) :
    List (String × Nat) :=
  match scores with
  | [] => [(topic, 1)]
  | (t, n) :: rest =>
      if t = topic then (t, n + 1) :: rest else (t, n) :: bumpTopic rest topic

/-- Scores one activity's (lower-cased) content against every topic keyword. -/
def scoreActivity (scores : List (String × Nat)) (content : List Char) :
    List (String × Nat) :=
  topicKeywords.foldl
    (fun sc tk =>
      tk.2.foldl
        (fun sc2 kw => if occursWithin kw.toList content then bumpTopic sc2 tk.1
                       else sc2)
        sc)
    scores

/-- Embedding of `ContextAnalyzer.extractTopics`: keyword-category scoring
over all activity text, stably sorted by score descending, top 3. -/
def extractTopics (contexts : List UserContext) : List String :=
  let scores := contexts.foldl
    (fun sc c =>
      (c.recentActivity.getD []).foldl
        (fun sc2 a => scoreActivity sc2 (lowerStr a.content).toList) sc)
    []
  ((scores.mergeSort (fun a b => decide (b.2 ≤ a.2))).take 3).map (·.1)

/-- Embedding of `ContextAnalyzer.extractOrganizations`: distinct (truthy)
organization strings in insertion order. -/
def extractOrganizations (contexts : List UserContext) : List String :=
  contexts.foldl
    (fun acc c =>
      if jsTruthyStr c.organization then insertDistinct acc (c.organization.getD "")
      else acc)
    []

/-- Embedding of `ContextAnalyzer.suggestAttackVectors`: platform-specific
candidate lists, concatenated then de-duplicated preserving order. -/
def suggestAttackVectors (contexts : List UserContext) : List String :=
  let platforms := contexts.map (·.platform)
  let vectors :=
    (if platforms.contains Platform.github then
      ["oauth_grant", "credential_harvest", "session_hijack"] else [])
    ++ (if platforms.contains Platform.linkedin then
      ["credential_harvest", "connection_impersonation"] else [])
    ++ (if platforms.contains Platform.gmail then
      ["credential_harvest", "oauth_grant", "mfa_bypass"] else [])
  vectors.foldl insertDistinct []

/-- Embedding of `ContextAnalyzer.calculatePersonalizationScore`:
(populated personal fields) / (4 × context count) × 100, rounded. -/
def calculatePersonalizationScore (contexts : List UserContext) : Int :=
  let score : Nat := contexts.foldl
    (fun acc c =>
      acc + (if jsTruthyStr c.username then 1 else 0)
          + (if jsTruthyStr c.email then 1 else 0)
          + (if jsTruthyStr c.organization then 1 else 0)
          + (if (c.connections.getD []).length > 0 then 1 else 0))
    0
  jsRound ((score : ℚ) / ((contexts.length : ℚ) * 4) * 100)

/-- Embedding of `ContextAnalyzer.getDefaultAnalysis`. -/
def getDefaultAnalysis : ContextAnalysis :=
  { riskProfile := .medium
    primaryPlatform := .unknown
    keyContacts := []
    topics := []
    organizations := []
    suggestedAttackVectors := ["credential_harvest"]
    personalizationScore := 0 }

/-- Embedding of `ContextAnalyzer.analyze`: the input is the value list of
the partial site → `UserContext` record (in key-insertion order, `none` for
an entry whose value is undefined); `filter(Boolean)` keeps the present
contexts, an empty result yields the default analysis. -/
def analyze (userContexts : List (Option UserContext)) : ContextAnalysis :=
  let contexts := userContexts.filterMap id
  if contexts.isEmpty then getDefaultAnalysis
  else
    { riskProfile := calculateRiskProfile contexts
      primaryPlatform := determinePrimaryPlatform contexts
      keyContacts := extractKeyContacts contexts
      topics := extractTopics contexts
      organizations := extractOrganizations contexts
      suggestedAttackVectors := suggestAttackVectors contexts
      personalizationScore := calculatePersonalizationScore contexts }

end ContextAnalyzer

/-- C6: the empty site → `UserContext` mapping yields (without any failure —
`analyze` is total) exactly the default analysis: risk profile medium,
primary site unknown, empty contact and topic lists, suggested vectors
`["credential_harvest"]`, personalization score 0. -/
theorem analyze_empty_is_default :
    ContextAnalyzer.analyze [] = ContextAnalyzer.getDefaultAnalysis ∧
    ContextAnalyzer.getDefaultAnalysis.riskProfile = .medium ∧
    ContextAnalyzer.getDefaultAnalysis.primaryPlatform = .unknown ∧
    ContextAnalyzer.getDefaultAnalysis.keyContacts = [] ∧
    ContextAnalyzer.getDefaultAnalysis.topics = [] ∧
    ContextAnalyzer.getDefaultAnalysis.suggestedAttackVectors
      = ["credential_harvest"] ∧
    ContextAnalyzer.getDefaultAnalysis.personalizationScore = 0 :=
  ⟨rfl, rfl, rfl, rfl, rfl, rfl, rfl⟩

/-- The per-context risk increment is non-negative. -/
theorem riskIncrement_nonneg (c : UserContext) :
    0 ≤ ContextAnalyzer.riskIncrement c := by
  unfold ContextAnalyzer.riskIncrement
  split_ifs <;> omega

/-- Folding the risk increments never decreases the accumulator. -/
theorem foldl_riskIncrement_ge (l : List UserContext) (init : Int) :
    init ≤ l.foldl (fun acc c => acc + ContextAnalyzer.riskIncrement c) init := by
  induction l generalizing init with
  | nil => simp
  | cons c rest ih =>
      simp only [List.foldl_cons]
      have h1 := riskIncrement_nonneg c
      have h2 := ih (init + ContextAnalyzer.riskIncrement c)
      omega

/-- C10: for every site → `UserContext` mapping (in particular every
non-empty one), the analysis' risk profile is medium or high, never low:
the score starts at the baseline 50 and only additive increments apply, so
it never falls below the 40-point medium threshold. -/
theorem analyze_riskProfile_never_low
    (userContexts : List (Option UserContext)) (h : userContexts ≠ []) :
    (ContextAnalyzer.analyze userContexts).riskProfile = .medium ∨
    (ContextAnalyzer.analyze userContexts).riskProfile = .high := by
  unfold ContextAnalyzer.analyze
  by_cases hempty : (userContexts.filterMap id).isEmpty
  · simp [hempty, ContextAnalyzer.getDefaultAnalysis]
  · simp only [hempty, if_false, Bool.false_eq_true]
    unfold ContextAnalyzer.calculateRiskProfile
    have hge := foldl_riskIncrement_ge (userContexts.filterMap id) 50
    dsimp only
    split_ifs with h70 h40
    · right; rfl
    · left; rfl
    · omega

/-- Witness for C10 at a concrete one-site mapping. -/
theorem analyze_riskProfile_never_low_witness :
    (ContextAnalyzer.analyze [some { platform := Platform.github }]).riskProfile
        = .medium ∨
    (ContextAnalyzer.analyze [some { platform := Platform.github }]).riskProfile
        = .high :=
  analyze_riskProfile_never_low [some { platform := Platform.github }]
    (by simp)

namespace SimulationEngine

/-- Minimum inter-simulation interval, simulation-engine.ts:19. -/
def MIN_INTERVAL_MS : Int := 300000

/-- Mutable fields of the `SimulationEngine` instance
(`lastSimulationTime`, `simulationCount`). -/
structure EngineState where
  lastSimulationTime : Int
  simulationCount : Nat
  deriving DecidableEq, Repr

/-- Engine state at construction: `lastSimulationTime = 0`,
`simulationCount = 0`. -/
def initialState : EngineState :=
  { lastSimulationTime := 0, simulationCount := 0 }

/-- Embedding of `SimulationEngine.calculateContextFactor`: +0.1 for each
populated (truthy) context field. -/
def calculateContextFactor (context : UserContext) : ℚ :=
  (if jsTruthyStr context.username then (1 : ℚ) / 10 else 0)
    + (if jsTruthyStr context.email then (1 : ℚ) / 10 else 0)
    + (if jsTruthyStr context.organization then (1 : ℚ) / 10 else 0)
    + (if (context.connections.getD []).length > 0 then (1 : ℚ) / 10 else 0)
    + (if (context.recentActivity.getD []).length > 0 then (1 : ℚ) / 10 else 0)

/-- Embedding of `SimulationEngine.shouldTriggerSimulation`
(simulation-engine.ts:25-42).  `Date.now()` and `Math.random()` are the
explicit `now` and `rand` parameters.  The method reads the engine state but
never writes it. -/
def shouldTriggerSimulation (st : EngineState) (platform : Platform)
    (context : UserContext) (now : Int) (rand : ℚ) : Bool :=
  if now - st.lastSimulationTime < MIN_INTERVAL_MS then false
  else if st.simulationCount ≥ 5 then false
  else rand < min ((1 : ℚ) / 5 + calculateContextFactor context) (3 / 5)

/-- State effect of `SimulationEngine.generateSimulation`
(simulation-engine.ts:69-70): records the generation time and bumps the
session count.  The generated `PhishingSimulation` value is not needed by
the cadence claims. -/
def generateSimulationStateUpdate (st : EngineState) (now : Int) :
    EngineState :=
  { lastSimulationTime := now, simulationCount := st.simulationCount + 1 }

end SimulationEngine

/-- A context with no populated fields. -/
def emptyContext : UserContext := { platform := Platform.unknown }

/-- C3 (counterexample): nothing in `shouldTriggerSimulation` records the
call, so two calls 1000 ms apart (well under the 300000 ms minimum
interval) can both return true when no simulation has been generated —
the interval gate compares against `lastSimulationTime`, which only
`generateSimulation` sets. -/
theorem shouldTrigger_not_gated_by_prior_calls :
    SimulationEngine.shouldTriggerSimulation SimulationEngine.initialState
        Platform.unknown emptyContext 1000000 (1 / 10) = true ∧
    SimulationEngine.shouldTriggerSimulation SimulationEngine.initialState
        Platform.unknown emptyContext 1001000 (1 / 10) = true ∧
    (1001000 - 1000000 : Int) < SimulationEngine.MIN_INTERVAL_MS := by
  refine ⟨?_, ?_, by decide⟩ <;>
    norm_num [SimulationEngine.shouldTriggerSimulation,
      SimulationEngine.calculateContextFactor, SimulationEngine.initialState,
      SimulationEngine.MIN_INTERVAL_MS, emptyContext, jsTruthyStr, min_def]

/-- C3 (amended): `shouldTriggerSimulation` returns false whenever it is
called within the minimum interval (300000 ms) of the recorded
last-simulation time — in particular within the interval of any
`generateSimulation` call — and whenever the session simulation count has
reached the cap of 5, regardless of the supplied context and random draw. -/
theorem shouldTrigger_interval_and_cap
    (st : SimulationEngine.EngineState) (platform : Platform)
    (context : UserContext) (now : Int) (rand : ℚ) :
    (now - st.lastSimulationTime < SimulationEngine.MIN_INTERVAL_MS →
      SimulationEngine.shouldTriggerSimulation st platform context now rand
        = false) ∧
    (st.simulationCount ≥ 5 →
      SimulationEngine.shouldTriggerSimulation st platform context now rand
        = false) ∧
    (∀ (genTime now2 : Int) (rand2 : ℚ),
      now2 - genTime < SimulationEngine.MIN_INTERVAL_MS →
      SimulationEngine.shouldTriggerSimulation
        (SimulationEngine.generateSimulationStateUpdate st genTime)
        platform context now2 rand2 = false) := by
  refine ⟨fun h1 => ?_, fun h2 => ?_, fun genTime now2 rand2 h3 => ?_⟩ <;>
    simp [SimulationEngine.shouldTriggerSimulation,
      SimulationEngine.generateSimulationStateUpdate, *]

/-- Witness for C3 (amended) at concrete inputs. -/
theorem shouldTrigger_interval_and_cap_witness :
    SimulationEngine.shouldTriggerSimulation SimulationEngine.initialState
        Platform.unknown emptyContext 1000 (1 / 10) = false ∧
    SimulationEngine.shouldTriggerSimulation
        { lastSimulationTime := 0, simulationCount := 5 }
        Platform.unknown emptyContext 1000000 (1 / 10) = false :=
  ⟨(shouldTrigger_interval_and_cap SimulationEngine.initialState
      Platform.unknown emptyContext 1000 (1 / 10)).1 (by decide),
   (shouldTrigger_interval_and_cap
      { lastSimulationTime := 0, simulationCount := 5 }
      Platform.unknown emptyContext 1000000 (1 / 10)).2.1 (by decide)⟩

/-- Phishing attack types (`PhishingType` in `src/shared/types.ts`). -/
inductive PhishingType where
  | credentialHarvest
  | oauthGrant
  | mfaBypass
  | sessionHijack
  | clipboardHijack
  | fileDownload
  deriving DecidableEq, Repr

/-- Urgency levels of `SimulationContent`. -/
inductive Urgency where
  | low
  | medium
  | high
  | critical
  deriving DecidableEq, Repr

/-- Embedding of `ElementStyling` from `src/shared/types.ts`; the position
and theme unions are kept as strings. -/
structure ElementStyling where
  position : String
  theme : String
  brandColors : Option (List String) := none
  logoUrl : Option String := none
  deriving DecidableEq, Repr

/-- Embedding of `SimulationContent` from `src/shared/types.ts`. -/
structure SimulationContent where
  title : String
  body : String
  sender : Option String := none
  senderEmail : Option String := none
  urgency : Urgency
  actionText : String
  actionUrl : Option String := none
  styling : ElementStyling
  deriving DecidableEq, Repr

/-- Value union (`string | number | boolean`) of `TriggerCondition`. -/
inductive TCValue where
  | str (s : String)
  | num (n : ℚ)
  | bool (b : Bool)
  deriving DecidableEq, Repr

/-- Embedding of `TriggerCondition` from `src/shared/types.ts`. -/
structure TriggerCondition where
  type : String
  value : TCValue
  operator : String
  deriving DecidableEq, Repr

/-- Embedding of `SimulationMetadata` from `src/shared/types.ts`. -/
structure SimulationMetadata where
  createdAt : Int
  campaignId : String
  difficulty : Difficulty
  trainingObjective : String
  redTeamControlled : Bool
  deriving DecidableEq, Repr

/-- Embedding of `PhishingSimulation` from `src/shared/types.ts`. -/
structure PhishingSimulation where
  id : String
  type : PhishingType
  targetPlatform : Platform
  content : SimulationContent
  triggerConditions : List TriggerCondition
  metadata : SimulationMetadata
  deriving DecidableEq, Repr

/-- JavaScript `a || b` on an optional string (falls back on `undefined`
and on the empty string). -/
def strOr (o : Option String) (dflt : String) : String :=
  if jsTruthyStr o then o.getD "" else dflt

namespace PhishingGenerator

/-- Embedding of `PhishingGenerator.generateRedTeamScenario`
(phishing-generator.ts:436-468).  The generated id and `Date.now()` are
explicit parameters; everything else is computed from the arguments alone
(no randomness, no template table, no cadence state). -/
def generateRedTeamScenario (targetUser attackVector : String)
    (customPayload : Option String) (id : String) (now : Int) :
    PhishingSimulation :=
  { id := id
    type := .credentialHarvest
    targetPlatform := .gmail
    content :=
      { title := "Internal: " ++ strOr customPayload "Action Required"
        body := "Hi " ++ targetUser ++ ",\n\n"
            ++ strOr customPayload
                "Please review the attached document and provide your feedback by EOD."
        sender := some "IT Security Team"
        senderEmail := some "security@company.local"
        urgency := .high
        actionText := "View Document"
        actionUrl := some "https://docs.company-secure.local"
        styling := { position := "notification", theme := "light" } }
    triggerConditions := []
    metadata :=
      { createdAt := now
        campaignId := "red-team"
        difficulty := .expert
        trainingObjective := "Red team exercise"
        redTeamControlled := true } }

end PhishingGenerator

/-- C7: the red-team scenario for target "alice" and payload
"Pay this invoice" contains the literal payload in both title and body and
the target identity in the body, carries difficulty expert and the red-team
flag, and any two calls with identical arguments produce identical content,
trigger conditions, type and target (only the id and creation timestamp may
differ) — the path uses no randomness. -/
theorem generateRedTeamScenario_deterministic
    (id1 id2 : String) (now1 now2 : Int) (u v : String) (p : Option String) :
    strIncludes (PhishingGenerator.generateRedTeamScenario "alice"
        "Business Email Compromise" (some "Pay this invoice") id1
        now1).content.body "Pay this invoice" = true ∧
    strIncludes (PhishingGenerator.generateRedTeamScenario "alice"
        "Business Email Compromise" (some "Pay this invoice") id1
        now1).content.body "alice" = true ∧
    strIncludes (PhishingGenerator.generateRedTeamScenario "alice"
        "Business Email Compromise" (some "Pay this invoice") id1
        now1).content.title "Pay this invoice" = true ∧
    (PhishingGenerator.generateRedTeamScenario "alice"
        "Business Email Compromise" (some "Pay this invoice") id1
        now1).metadata.difficulty = .expert ∧
    (PhishingGenerator.generateRedTeamScenario "alice"
        "Business Email Compromise" (some "Pay this invoice") id1
        now1).metadata.redTeamControlled = true ∧
    (PhishingGenerator.generateRedTeamScenario u v p id1 now1).content
      = (PhishingGenerator.generateRedTeamScenario u v p id2 now2).content ∧
    (PhishingGenerator.generateRedTeamScenario u v p id1 now1).triggerConditions
      = (PhishingGenerator.generateRedTeamScenario u v p id2
          now2).triggerConditions ∧
    (PhishingGenerator.generateRedTeamScenario u v p id1 now1).type
      = (PhishingGenerator.generateRedTeamScenario u v p id2 now2).type ∧
    (PhishingGenerator.generateRedTeamScenario u v p id1 now1).targetPlatform
      = (PhishingGenerator.generateRedTeamScenario u v p id2
          now2).targetPlatform := by
  refine ⟨?_, ?_, ?_, rfl, rfl, rfl, rfl, rfl, rfl⟩ <;> rfl

/-- JavaScript `Math.min` on integers.  The detector's fractional weights
are embedded in exact hundredths (0.25 ↦ 25, 0.2 ↦ 20, …): every constant
in the source is a multiple of 0.01 and the only operations are addition,
`Math.min` and comparisons, so the integer model is an exact rescaling; the
reported confidence divides by 100 at the boundary. -/
def mathMin (a b : Int) : Int :=
  if a ≤ b then a else b

/-- Strips everything up to and including the first occurrence of `p`;
`none` when `p` does not occur. -/
def dropAfterMatch (p : List Char) : List Char → Option (List Char)
  | [] => if p.isEmpty then some [] else none
  | c :: rest =>
      if p.isPrefixOf (c :: rest) then some (List.drop p.length (c :: rest))
      else dropAfterMatch p rest

/-- Existence-of-match semantics of a regular expression of the shape
`p₁.*p₂.*…`: the literal pieces occur in order with arbitrary gaps
(taking the leftmost occurrence of each piece is complete for existence). -/
def seqMatch : List (List Char) → List Char → Bool
  | [], _ => true
  | p :: ps, s =>
      match dropAfterMatch p s with
      | some rest => seqMatch ps rest
      | none => false

/-- Protocol and hostname of a parsed URL, the only parts the detector
reads. -/
structure ParsedUrl where
  protocol : String
  hostname : String
  deriving DecidableEq, Repr

/-- Splits a character list at the first occurrence of `sep`; `none` when
`sep` does not occur. -/
def splitFirst (sep : List Char) : List Char → Option (List Char × List Char)
  | [] => if sep.isEmpty then some ([], []) else none
  | c :: rest =>
      if sep.isPrefixOf (c :: rest) then
        some ([], List.drop sep.length (c :: rest))
      else
        match splitFirst sep rest with
        | some (a, b) => some (c :: a, b)
        | none => none

/-- Model of the platform `new URL(...)` constructor restricted to what the
detector reads: absolute `scheme://host…` URLs with an alphabetic scheme and
a non-empty host (ended by `/`, `?`, `#` or `:`).  `protocol` is the
lower-cased scheme plus a colon and `hostname` the lower-cased host; other
URL shapes are treated as parse failures, matching the constructor on every
URL appearing in these claims. -/
def parseUrl (url : String) : Option ParsedUrl :=
  match splitFirst "://".toList url.toList with
  | none => none
  | some (scheme, rest) =>
      let host := rest.takeWhile
        (fun c => (c != '/') && (c != '?') && (c != '#') && (c != ':'))
      if scheme.isEmpty || !scheme.all (·.isAlpha) || host.isEmpty then none
      else
        some { protocol := lowerStr (String.mk scheme) ++ ":"
               hostname := lowerStr (String.mk host) }

namespace CredentialDetector

/-- Embedding of `FormField` from `src/shared/types.ts`. -/
structure FormField where
  type : String
  name : String
  autocomplete : Option String := none
  isPassword : Bool
  isHidden : Bool
  deriving DecidableEq, Repr

/-- Embedding of `UserBehavior` from `src/shared/types.ts`. -/
structure UserBehavior where
  timeOnPage : Int
  mouseMovements : Int
  keystrokes : Int
  formInteractions : Int
  deriving DecidableEq, Repr

/-- Severity scale of a `RiskFactor`. -/
inductive Severity where
  | low
  | medium
  | high
  deriving DecidableEq, Repr

/-- Embedding of `RiskFactor` from `src/shared/types.ts`. -/
structure RiskFactor where
  type : String
  severity : Severity
  description : String
  deriving DecidableEq, Repr

/-- Embedding of `DetectionInput` from the credential detector source. -/
structure DetectionInput where
  formFields : List FormField
  url : String
  pageTitle : String
  pageContent : String
  userBehavior : UserBehavior
  timestamp : Int
  deriving DecidableEq, Repr

/-- Embedding of `MLPrediction` from `src/shared/types.ts`. -/
structure MLPrediction where
  isCredentialEntry : Bool
  confidence : ℚ
  riskFactors : List RiskFactor
  deriving DecidableEq, Repr

/-- Username-field patterns (`patterns.username`), case-insensitive
contains-tests. -/
def usernamePatterns : List String :=
  ["username", "user", "email", "login", "account"]

/-- Allow-list `knownLegitimateDomains` of the detector. -/
def knownLegitimateDomains : List String :=
  ["github.com", "linkedin.com", "google.com",
   "accounts.google.com", "login.microsoftonline.com",
   "appleid.apple.com", "amazon.com"]

/-- Suspicious URL regexes of `analyzeUrl`, as ordered literal pieces
(`signin.*verify` and so on, case-insensitive). -/
def suspiciousUrlPatterns : List (List String) :=
  [["signin", "verify"], ["secure", "login"], ["account", "update"],
   ["confirm", "identity"], ["auth", "verify"]]

/-- Link-shortener hosts checked by `analyzeUrl`. -/
def shorteners : List String :=
  ["bit.ly", "tinyurl.com", "t.co", "goo.gl", "ow.ly"]

/-- Urgency keywords of `analyzeContent`. -/
def urgencyKeywords : List String :=
  ["immediately", "urgent", "asap", "right now", "limited time",
   "account will be", "suspended", "terminated", "24 hours"]

/-- Security keywords of `analyzeContent`. -/
def securityKeywords : List String :=
  ["verify", "confirm", "update", "security", "unauthorized",
   "suspicious", "breach", "compromised"]

/-- Typo list of `analyzeContent`. -/
def commonTypos : List String :=
  ["acount", "verfy", "securty", "login", "signin"]

/-- Factor pushed when a password field is present. -/
def passwordFieldFactor : RiskFactor :=
  { type := "password_field", severity := .high,
    description := "Password field detected" }

/-- Factor pushed for a non-HTTPS page. -/
def insecureProtocolFactor : RiskFactor :=
  { type := "insecure_protocol", severity := .high,
    description := "Page does not use HTTPS encryption" }

/-- Factor pushed for a host outside the allow-list. -/
def unknownDomainFactor : RiskFactor :=
  { type := "unknown_domain", severity := .medium,
    description := "Domain is not in known legitimate list" }

/-- Factor pushed for a suspicious URL pattern. -/
def suspiciousUrlFactor : RiskFactor :=
  { type := "suspicious_url_pattern", severity := .medium,
    description := "URL contains suspicious keywords" }

/-- Factor pushed for a literal IP-address host. -/
def ipAddressFactor : RiskFactor :=
  { type := "ip_address", severity := .high,
    description := "URL uses IP address instead of domain name" }

/-- Factor pushed for a link-shortener host. -/
def urlShortenerFactor : RiskFactor :=
  { type := "url_shortener", severity := .medium,
    description := "URL uses a link shortener" }

/-- Factor pushed when URL parsing throws. -/
def invalidUrlFactor : RiskFactor :=
  { type := "invalid_url", severity := .high,
    description := "Could not parse URL" }

/-- Factor pushed for urgency language. -/
def urgencyFactor : RiskFactor :=
  { type := "urgency_language", severity := .medium,
    description := "Page uses urgent or threatening language" }

/-- Factor pushed for suspicious spelling. -/
def spellingFactor : RiskFactor :=
  { type := "suspicious_spelling", severity := .low,
    description := "Possible spelling errors detected" }

/-- Factor pushed for rushed form entry. -/
def rushedFactor : RiskFactor :=
  { type := "rushed_behavior", severity := .low,
    description := "Quick form entry detected" }

/-- Factor pushed for low mouse interaction. -/
def lowInteractionFactor : RiskFactor :=
  { type := "low_interaction", severity := .low,
    description := "Unusually low mouse interaction" }

/-- Test of the anchored regex `^\d{1,3}\.\d{1,3}\.\d{1,3}\.\d{1,3}$`:
exactly four dot-separated groups of 1-3 digits. -/
def isIpAddress (domain : String) : Bool :=
  match splitOnChar '.' domain.toList with
  | [a, b, c, d] =>
      [a, b, c, d].all
        (fun s => 1 ≤ s.length && s.length ≤ 3 && s.all (·.isDigit))
  | _ => false

/-- Lower-cased hostname (`const domain = urlObj.hostname.toLowerCase()`). -/
def urlDomain (u : ParsedUrl) : String :=
  lowerStr u.hostname

/-- HTTPS check of `analyzeUrl` (`urlObj.protocol !== 'https:'`). -/
def urlInsecure (u : ParsedUrl) : Bool :=
  u.protocol != "https:"

/-- Allow-list check of `analyzeUrl` (exact or dot-suffix match). -/
def urlIsLegitimate (u : ParsedUrl) : Bool :=
  knownLegitimateDomains.any (fun d =>
    urlDomain u == d || List.isSuffixOf ("." ++ d).toList (urlDomain u).toList)

/-- Suspicious-pattern check of `analyzeUrl` over the whole URL string
(case-insensitive). -/
def urlSuspicious (url : String) : Bool :=
  suspiciousUrlPatterns.any (fun pats =>
    seqMatch (pats.map (·.toList)) (lowerStr url).toList)

/-- IP-address check of `analyzeUrl`. -/
def urlIsIp (u : ParsedUrl) : Bool :=
  isIpAddress (urlDomain u)

/-- Link-shortener check of `analyzeUrl` (`domain.includes(s)`). -/
def urlShortener (u : ParsedUrl) : Bool :=
  shorteners.any (fun s2 => strIncludes (urlDomain u) s2)

/-- Embedding of `CredentialDetector.analyzeUrl`: score contributions and
factors in source push order (insecure protocol, unknown domain, suspicious
pattern — at most once, the source loop breaks —, IP address, shortener);
a parse failure contributes 0.3 and the invalid-URL factor. -/
def analyzeUrl (url : String) : Int × List RiskFactor :=
  match parseUrl url with
  | none => (30, [invalidUrlFactor])
  | some u =>
      ((if urlInsecure u then (20 : Int) else 0)
        + (if !urlIsLegitimate u then 15 else 0)
        + (if urlSuspicious url then 10 else 0)
        + (if urlIsIp u then 20 else 0)
        + (if urlShortener u then 15 else 0),
       (if urlInsecure u then [insecureProtocolFactor] else [])
        ++ (if !urlIsLegitimate u then [unknownDomainFactor] else [])
        ++ (if urlSuspicious url then [suspiciousUrlFactor] else [])
        ++ (if urlIsIp u then [ipAddressFactor] else [])
        ++ (if urlShortener u then [urlShortenerFactor] else []))

/-- Embedding of `CredentialDetector.analyzeContent`: urgency-keyword score
(capped at 0.15, one factor), security-keyword surplus score (no factor),
typo score (at most once, the source loop breaks). -/
def analyzeContent (content : String) : Int × List RiskFactor :=
  let lowerContent := lowerStr content
  let urgencyCount :=
    (urgencyKeywords.filter (fun k => strIncludes lowerContent k)).length
  let urgencyScore : Int :=
    if urgencyCount > 0 then mathMin ((urgencyCount : Int) * 5) 15
    else 0
  let securityCount :=
    (securityKeywords.filter (fun k => strIncludes lowerContent k)).length
  let securityScore : Int :=
    if securityCount > 2 then
      mathMin (((securityCount : Int) - 2) * 3) 10
    else 0
  let typo := commonTypos.any (fun t => strIncludes lowerContent t)
  (urgencyScore + securityScore + (if typo then (5 : Int) else 0),
   (if urgencyCount > 0 then [urgencyFactor] else [])
     ++ (if typo then [spellingFactor] else []))

/-- Embedding of `CredentialDetector.analyzeBehavior`. -/
def analyzeBehavior (behavior : UserBehavior) : Int × List RiskFactor :=
  let rushed := behavior.timeOnPage < 3000 ∧ behavior.keystrokes > 10
  let lowInteraction := behavior.mouseMovements < 5 ∧ behavior.keystrokes > 20
  ((if rushed then (5 : Int) else 0)
     + (if lowInteraction then (5 : Int) else 0),
   (if rushed then [rushedFactor] else [])
     ++ (if lowInteraction then [lowInteractionFactor] else []))

/-- Password-field test of `analyze` (`input.formFields.some(f => f.isPassword)`). -/
def hasPasswordField (input : DetectionInput) : Bool :=
  input.formFields.any (·.isPassword)

/-- Username-field test of `analyze`. -/
def hasUsernameField (input : DetectionInput) : Bool :=
  input.formFields.any (fun f =>
    f.type == "email"
      || usernamePatterns.any (fun p => strIncludes (lowerStr f.name) p))

/-- Factor list accumulated by `analyze`, in source push order: password
factor, URL factors, content factors, behavior factors. -/
def collectedFactors (input : DetectionInput) : List RiskFactor :=
  (if hasPasswordField input then [passwordFieldFactor] else [])
    ++ (analyzeUrl input.url).2
    ++ (analyzeContent (input.pageTitle ++ " " ++ input.pageContent)).2
    ++ (analyzeBehavior input.userBehavior).2

/-- Risk score accumulated by `analyze` before the final clamp, in
hundredths (password field 0.25 ↦ 25, username field 0.1 ↦ 10). -/
def rawRiskScore (input : DetectionInput) : Int :=
  (if hasPasswordField input then (25 : Int) else 0)
    + (if hasUsernameField input then (10 : Int) else 0)
    + (analyzeUrl input.url).1
    + (analyzeContent (input.pageTitle ++ " " ++ input.pageContent)).1
    + (analyzeBehavior input.userBehavior).1

/-- Clamped risk score of `analyze` (`Math.min(riskScore, 1.0)`), in
hundredths. -/
def riskScore100 (input : DetectionInput) : Int :=
  mathMin (rawRiskScore input) 100

/-- Embedding of `CredentialDetector.analyze`: clamp the accumulated score
to at most 1.0, verdict = password field present AND score > 0.6, the
confidence (back in the source's unit scale) and the first five collected
factors. -/
def analyze (input : DetectionInput) : MLPrediction :=
  { isCredentialEntry :=
      hasPasswordField input && decide (riskScore100 input > 60)
    confidence := (riskScore100 input : ℚ) / 100
    riskFactors := (collectedFactors input).take 5 }

/-- Numeric rank of a severity (high > medium > low). -/
def severityRank : Severity → Nat
  | .high => 2
  | .medium => 1
  | .low => 0

/-- Whether a factor list is ordered by non-increasing severity. -/
def severitySorted : List RiskFactor → Bool
  | [] => true
  | [_] => true
  | a :: b :: rest =>
      decide (severityRank b.severity ≤ severityRank a.severity)
        && severitySorted (b :: rest)

/-- Lower bound through `mathMin`. -/
theorem le_mathMin {c a b : Int} (ha : c ≤ a) (hb : c ≤ b) : c ≤ mathMin a b := by
  unfold mathMin
  split_ifs <;> assumption

/-- Non-negativity through `mathMin`. -/
theorem mathMin_nonneg {a b : Int} (ha : 0 ≤ a) (hb : 0 ≤ b) :
    0 ≤ mathMin a b :=
  le_mathMin ha hb

/-- A conditional non-negative contribution is non-negative. -/
theorem ite_score_nonneg {c : Prop} [Decidable c] {q : Int} (hq : 0 ≤ q) :
    (0 : Int) ≤ if c then q else 0 := by
  split_ifs <;> simp [hq]

/-- Membership in a prefix of length at most five survives `take 5`. -/
theorem mem_take_five {α : Type} (a b : List α) (x : α)
    (hlen : a.length ≤ 5) (hx : x ∈ a) : x ∈ (a ++ b).take 5 := by
  rw [List.take_append_eq_append_take, List.take_of_length_le hlen]
  exact List.mem_append_left _ hx

/-- The URL factor list splits into a head of length at most four holding
every possible high-severity URL factor and a tail (the shortener factor)
with no high-severity entries. -/
theorem urlFactors_split (url : String) :
    ∃ head tail, (analyzeUrl url).2 = head ++ tail ∧ head.length ≤ 4 ∧
      ∀ f ∈ tail, f.severity ≠ .high := by
  unfold analyzeUrl
  cases hp : parseUrl url with
  | none => exact ⟨[invalidUrlFactor], [], by simp, by simp, by simp⟩
  | some u =>
      refine ⟨(if urlInsecure u then [insecureProtocolFactor] else [])
          ++ ((if !urlIsLegitimate u then [unknownDomainFactor] else [])
            ++ ((if urlSuspicious url then [suspiciousUrlFactor] else [])
              ++ (if urlIsIp u then [ipAddressFactor] else []))),
        if urlShortener u then [urlShortenerFactor] else [], ?_, ?_, ?_⟩
      · simp [List.append_assoc]
      · simp only [List.length_append]
        split_ifs <;> simp
      · split_ifs <;> simp [urlShortenerFactor]

/-- Content factors are never high-severity (urgency is medium, spelling is
low). -/
theorem contentFactors_no_high (s : String) :
    ∀ f ∈ (analyzeContent s).2, f.severity ≠ .high := by
  unfold analyzeContent
  dsimp only
  split_ifs <;> simp [urgencyFactor, spellingFactor]

/-- Behavior factors are never high-severity (both are low). -/
theorem behaviorFactors_no_high (b : UserBehavior) :
    ∀ f ∈ (analyzeBehavior b).2, f.severity ≠ .high := by
  unfold analyzeBehavior
  dsimp only
  split_ifs <;> simp [rushedFactor, lowInteractionFactor]

/-- The URL score is non-negative. -/
theorem analyzeUrl_score_nonneg (url : String) : 0 ≤ (analyzeUrl url).1 := by
  unfold analyzeUrl
  cases parseUrl url with
  | none => norm_num
  | some u =>
      dsimp only
      refine add_nonneg (add_nonneg (add_nonneg (add_nonneg ?_ ?_) ?_) ?_) ?_ <;>
        exact ite_score_nonneg (by norm_num)

/-- The content score is non-negative. -/
theorem analyzeContent_score_nonneg (s : String) :
    0 ≤ (analyzeContent s).1 := by
  unfold analyzeContent
  dsimp only
  refine add_nonneg (add_nonneg ?_ ?_) (ite_score_nonneg (by norm_num))
  · split_ifs with h
    · exact mathMin_nonneg (by positivity) (by norm_num)
    · exact le_refl 0
  · split_ifs with h
    · exact mathMin_nonneg (by omega) (by norm_num)
    · exact le_refl 0

/-- The behavior score is non-negative. -/
theorem analyzeBehavior_score_nonneg (b : UserBehavior) :
    0 ≤ (analyzeBehavior b).1 := by
  unfold analyzeBehavior
  dsimp only
  exact add_nonneg (ite_score_nonneg (by norm_num))
    (ite_score_nonneg (by norm_num))

/-- A parsed non-HTTPS URL contributes at least 0.2 (20 hundredths) and puts
the insecure-protocol factor at the head of the URL factor list. -/
theorem analyzeUrl_insecure (url : String) (u : ParsedUrl)
    (hp : parseUrl url = some u) (hproto : u.protocol ≠ "https:") :
    20 ≤ (analyzeUrl url).1 ∧
    ∃ t, (analyzeUrl url).2 = insecureProtocolFactor :: t := by
  have hins : urlInsecure u = true := by
    simp [urlInsecure, hproto]
  unfold analyzeUrl
  rw [hp]
  dsimp only
  rw [hins]
  constructor
  · have h1 : (0 : Int) ≤ if (!urlIsLegitimate u) = true then 15 else 0 :=
      ite_score_nonneg (by norm_num)
    have h2 : (0 : Int) ≤ if urlSuspicious url = true then 10 else 0 :=
      ite_score_nonneg (by norm_num)
    have h3 : (0 : Int) ≤ if urlIsIp u = true then 20 else 0 :=
      ite_score_nonneg (by norm_num)
    have h4 : (0 : Int) ≤ if urlShortener u = true then 15 else 0 :=
      ite_score_nonneg (by norm_num)
    simp only [if_true]
    linarith
  · refine ⟨(if !urlIsLegitimate u then [unknownDomainFactor] else [])
      ++ ((if urlSuspicious url then [suspiciousUrlFactor] else [])
        ++ ((if urlIsIp u then [ipAddressFactor] else [])
          ++ (if urlShortener u then [urlShortenerFactor] else []))), ?_⟩
    simp

/-- A (lower-cased) urgency-keyword hit makes the content score at least
0.05 (5 hundredths). -/
theorem analyzeContent_urgency (s k : String) (hk : k ∈ urgencyKeywords)
    (h : strIncludes (lowerStr s) k = true) :
    5 ≤ (analyzeContent s).1 := by
  unfold analyzeContent
  dsimp only
  have hmem : k ∈ urgencyKeywords.filter (fun k2 => strIncludes (lowerStr s) k2) :=
    List.mem_filter.mpr ⟨hk, h⟩
  have hpos : 0 < (urgencyKeywords.filter
      (fun k2 => strIncludes (lowerStr s) k2)).length :=
    List.length_pos_of_mem hmem
  rw [if_pos hpos]
  have hmin : (5 : Int) ≤ mathMin
      (((urgencyKeywords.filter (fun k2 => strIncludes (lowerStr s) k2)).length : Int)
        * 5) 15 := by
    refine le_mathMin (by omega) (by norm_num)
  have hsec : (0 : Int) ≤ if (securityKeywords.filter
        (fun k2 => strIncludes (lowerStr s) k2)).length > 2 then
      mathMin ((((securityKeywords.filter
          (fun k2 => strIncludes (lowerStr s) k2)).length : Int) - 2) * 3) 10
    else 0 := by
    split_ifs with h2
    · exact mathMin_nonneg (by omega) (by norm_num)
    · exact le_refl 0
  have htypo : (0 : Int) ≤
      if commonTypos.any (fun t => strIncludes (lowerStr s) t) = true then
        (5 : Int) else 0 :=
    ite_score_nonneg (by norm_num)
  linarith

/-- Calm user behavior used by the concrete detector inputs. -/
def calmBehavior : UserBehavior :=
  { timeOnPage := 100000, mouseMovements := 100, keystrokes := 0,
    formInteractions := 0 }

/-- Login form on an unlisted plain-HTTP host: confidence lands at 0.7. -/
def c2In : DetectionInput :=
  { formFields :=
      [{ type := "text", name := "user", isPassword := false, isHidden := false },
       { type := "password", name := "p", isPassword := true, isHidden := false }],
    url := "http://evil.test/a", pageTitle := "", pageContent := "",
    userBehavior := calmBehavior, timestamp := 0 }

/-- Password form on a plain-HTTP IP host with a suspicious path and urgent
page title: six factors are collected. -/
def c4In : DetectionInput :=
  { formFields :=
      [{ type := "password", name := "p", isPassword := true, isHidden := false }],
    url := "http://1.2.3.4/securelogin", pageTitle := "urgent",
    pageContent := "", userBehavior := calmBehavior, timestamp := 0 }

/-- Password form on plain-HTTP `github.com` (allow-listed) with urgent page
title: confidence lands at exactly 0.5. -/
def c8In : DetectionInput :=
  { formFields :=
      [{ type := "password", name := "p", isPassword := true, isHidden := false }],
    url := "http://github.com/", pageTitle := "urgent", pageContent := "",
    userBehavior := calmBehavior, timestamp := 0 }

/-- C2 (amended): a true credential-entry verdict requires a password-capable
form field and a confidence strictly above the hard-coded threshold 0.6 (the
0.75 `CONFIDENCE_THRESHOLD` constant is not the one `analyze` compares
against). -/
theorem analyze_verdict_needs_password_and_threshold
    (input : DetectionInput)
    (h : (analyze input).isCredentialEntry = true) :
    (∃ f ∈ input.formFields, f.isPassword = true) ∧
    (analyze input).confidence > 3 / 5 := by
  unfold analyze at h
  dsimp only at h
  rw [Bool.and_eq_true, decide_eq_true_eq] at h
  obtain ⟨hp, ht⟩ := h
  constructor
  · unfold hasPasswordField at hp
    rw [List.any_eq_true] at hp
    obtain ⟨f, hf, hfp⟩ := hp
    exact ⟨f, hf, hfp⟩
  · show ((riskScore100 input : ℚ) / 100) > 3 / 5
    have h61 : (60 : ℚ) < (riskScore100 input : ℚ) := by exact_mod_cast ht
    linarith

/-- Witness for C2 (amended) at the concrete input `c2In`. -/
theorem analyze_verdict_needs_password_and_threshold_witness :
    (∃ f ∈ c2In.formFields, f.isPassword = true) ∧
    (analyze c2In).confidence > 3 / 5 :=
  analyze_verdict_needs_password_and_threshold c2In (by decide)

/-- C2 (counterexample): on `c2In` the verdict is true while the confidence
is 0.7, which does not exceed 0.75 — the threshold `analyze` uses is 0.6. -/
theorem analyze_verdict_below_075 :
    (analyze c2In).isCredentialEntry = true ∧
    (analyze c2In).confidence = 7 / 10 ∧
    ¬ ((analyze c2In).confidence > 3 / 4) := by
  have h70 : riskScore100 c2In = 70 := by decide
  refine ⟨by decide, ?_, ?_⟩
  · show ((riskScore100 c2In : ℚ) / 100) = 7 / 10
    rw [h70]
    norm_num
  · show ¬ (((riskScore100 c2In : ℚ) / 100) > 3 / 4)
    rw [h70]
    norm_num

/-- C4 (amended): the returned factor list is the first five collected
factors in discovery order — password factor first, then URL, content and
behavior factors — with no re-sorting by severity; this prefix nevertheless
contains every high-severity contributor, because high-severity factors can
only arise among the password factor and the first four URL factors while
low-severity ones are always discovered last. -/
theorem analyze_riskFactors_first_five (input : DetectionInput) :
    (analyze input).riskFactors = (collectedFactors input).take 5 ∧
    ∀ f ∈ collectedFactors input, f.severity = .high →
      f ∈ (analyze input).riskFactors := by
  refine ⟨rfl, ?_⟩
  intro f hf hsev
  obtain ⟨head, tail, hsplit, hlen, htail⟩ := urlFactors_split input.url
  have hshape : collectedFactors input
      = ((if hasPasswordField input then [passwordFieldFactor] else []) ++ head)
        ++ (tail
          ++ ((analyzeContent (input.pageTitle ++ " " ++ input.pageContent)).2
            ++ (analyzeBehavior input.userBehavior).2)) := by
    simp [collectedFactors, hsplit, List.append_assoc]
  have hlen2 : ((if hasPasswordField input then [passwordFieldFactor] else [])
      ++ head).length ≤ 5 := by
    rw [List.length_append]
    split_ifs <;> simp <;> omega
  have hmem : f ∈ (if hasPasswordField input then [passwordFieldFactor] else [])
      ++ head := by
    rw [hshape] at hf
    rcases List.mem_append.mp hf with h1 | h1
    · exact h1
    · exfalso
      rcases List.mem_append.mp h1 with h2 | h2
      · exact htail f h2 hsev
      rcases List.mem_append.mp h2 with h3 | h3
      · exact contentFactors_no_high _ f h3 hsev
      · exact behaviorFactors_no_high _ f h3 hsev
  show f ∈ (collectedFactors input).take 5
  rw [hshape]
  exact mem_take_five _ _ f hlen2 hmem

/-- Witness for C4 (amended): on `c4In` the high-severity IP-address factor
(discovered fifth) is in the returned list. -/
theorem analyze_riskFactors_first_five_witness :
    ipAddressFactor ∈ (analyze c4In).riskFactors :=
  (analyze_riskFactors_first_five c4In).2 ipAddressFactor (by decide) rfl

/-- C4 (counterexample): `c4In` contributes six factors, yet the returned
list has severities high, high, medium, medium, high — the two medium URL
factors precede the high IP-address factor, so the list is not in severity
order. -/
theorem analyze_factors_not_severity_sorted :
    (collectedFactors c4In).length = 6 ∧
    ((analyze c4In).riskFactors.map (fun f => f.severity))
      = [.high, .high, .medium, .medium, .high] ∧
    severitySorted ((analyze c4In).riskFactors) = false := by
  refine ⟨by decide, by decide, by decide⟩

/-- C8 (amended): with a password-capable field, a parsed non-HTTPS URL and
an urgency keyword in the page text, the confidence is at least 0.5 (but not
necessarily above 0.6: an allow-listed host contributes nothing further) and
the returned factor list contains both the password-field and
insecure-protocol factors. -/
theorem analyze_insecure_password_urgency
    (input : DetectionInput) (u : ParsedUrl) (k : String)
    (hpwd : hasPasswordField input = true)
    (hurl : parseUrl input.url = some u)
    (hproto : u.protocol ≠ "https:")
    (hk : k ∈ urgencyKeywords)
    (hurg : strIncludes (lowerStr (input.pageTitle ++ " " ++ input.pageContent)) k
        = true) :
    1 / 2 ≤ (analyze input).confidence ∧
    passwordFieldFactor ∈ (analyze input).riskFactors ∧
    insecureProtocolFactor ∈ (analyze input).riskFactors := by
  obtain ⟨hscore, t, ht⟩ := analyzeUrl_insecure input.url u hurl hproto
  have hcontent := analyzeContent_urgency
    (input.pageTitle ++ " " ++ input.pageContent) k hk hurg
  have hraw : 50 ≤ rawRiskScore input := by
    unfold rawRiskScore
    rw [hpwd]
    have huser : (0 : Int) ≤ if hasUsernameField input = true then 10 else 0 :=
      ite_score_nonneg (by norm_num)
    have hbehav := analyzeBehavior_score_nonneg input.userBehavior
    simp only [if_true]
    linarith
  have hshape : collectedFactors input
      = [passwordFieldFactor, insecureProtocolFactor]
        ++ (t ++ ((analyzeContent (input.pageTitle ++ " "
              ++ input.pageContent)).2
            ++ (analyzeBehavior input.userBehavior).2)) := by
    simp [collectedFactors, hpwd, ht]
  refine ⟨?_, ?_, ?_⟩
  · show 1 / 2 ≤ ((riskScore100 input : ℚ) / 100)
    have h50 : (50 : Int) ≤ riskScore100 input := le_mathMin hraw (by norm_num)
    have h50q : (50 : ℚ) ≤ (riskScore100 input : ℚ) := by exact_mod_cast h50
    linarith
  · show passwordFieldFactor ∈ (collectedFactors input).take 5
    rw [hshape]
    exact mem_take_five _ _ _ (by norm_num) (by simp)
  · show insecureProtocolFactor ∈ (collectedFactors input).take 5
    rw [hshape]
    exact mem_take_five _ _ _ (by norm_num) (by simp)

/-- Witness for C8 (amended) at the concrete input `c8In`. -/
theorem analyze_insecure_password_urgency_witness :
    1 / 2 ≤ (analyze c8In).confidence ∧
    passwordFieldFactor ∈ (analyze c8In).riskFactors ∧
    insecureProtocolFactor ∈ (analyze c8In).riskFactors :=
  analyze_insecure_password_urgency c8In
    { protocol := "http:", hostname := "github.com" } "urgent"
    (by decide) (by decide) (by decide) (by decide) (by decide)

/-- C8 (counterexample): `c8In` has a password field, a non-HTTPS URL and an
urgency keyword, yet the confidence is exactly 0.5, not above 0.6 — the
allow-listed host `github.com` contributes no unknown-domain weight. -/
theorem analyze_confidence_can_be_half :
    hasPasswordField c8In = true ∧
    parseUrl c8In.url = some { protocol := "http:", hostname := "github.com" } ∧
    strIncludes (lowerStr (c8In.pageTitle ++ " " ++ c8In.pageContent)) "urgent"
      = true ∧
    (analyze c8In).confidence = 1 / 2 ∧
    ¬ ((analyze c8In).confidence > 3 / 5) := by
  have h50 : riskScore100 c8In = 50 := by decide
  refine ⟨by decide, by decide, by decide, ?_, ?_⟩
  · show ((riskScore100 c8In : ℚ) / 100) = 1 / 2
    rw [h50]
    norm_num
  · show ¬ (((riskScore100 c8In : ℚ) / 100) > 3 / 5)
    rw [h50]
    norm_num

end CredentialDetector

end BTS
